import Mathlib

/-
  Verification of the Smoothieware Z-probe / comprehensive delta calibration
  module (src/modules/tools/zprobe/ZProbe.cpp and
  ComprehensiveDeltaStrategy.cpp), as a shallow embedding in Lean 4.

  Floating point values of the source are modelled by rationals; machine
  integers by Nat or Int; fallible operations by Option or by explicit
  outcome inductives.  External collaborators (stepper motors, probe pin,
  planner, arm solution, endstop data bus) are modelled as explicit state
  or as environment records supplying their observable behaviour.
-/

namespace ZProbeModel

/-! ## Actuator motion state

  The three stepper actuators report is_moving.  This record captures the
  observable state that ZProbe::wait_for_probe reads through
  STEPPER[a]->is_moving(). -/

structure MovingState where
  xMoving : Bool
  yMoving : Bool
  zMoving : Bool
deriving DecidableEq, Repr

/-- Embedding of the not-triggered exit test of ZProbe::wait_for_probe
  (ZProbe.cpp lines 182-187):
  `!STEPPER[Z]->is_moving() && (!delta || (!STEPPER[Y]->is_moving() && !STEPPER[Z]->is_moving()))`.
  Note the source tests the Z actuator twice and never the X actuator. -/
def notTriggeredExit (delta : Bool) (s : MovingState) : Bool :=
  !s.zMoving && (!delta || (!s.yMoving && !s.zMoving))

/-! ## Debounce automaton of the polling loop

  ZProbe::wait_for_probe (lines 189-257) reads the probe pin on every
  polling iteration.  An inactive read resets the debounce counter; an
  active read increments it while still below debounce_count, and triggers
  once the counter has reached debounce_count.  We model the loop as a
  function over the finite list of pin reads it would perform, returning
  whether the cycle triggers within those reads (ignoring here the
  actuator-stop exit, which is orthogonal to the debounce behaviour). -/

def waitReads (debounce_count : Nat) (debounce : Nat) : List Bool → Bool
  | [] => false
  | r :: rs =>
    if r then
      if debounce < debounce_count then waitReads debounce_count (debounce + 1) rs
      else true
    else waitReads debounce_count 0 rs

/-! ## Deceleration configuration (setDecelerateOnTrigger)

  ZProbe keeps decelerate_runout (float, sentinel -1 for unset) and the
  decelerate_on_trigger flag.  setDecelerateOnTrigger (lines 162-169)
  refuses to honour the request only when decelerate_runout equals the
  sentinel -1, in which case it emits a message and forces the flag off. -/

structure DecelCfg where
  decelerate_runout : ℚ
  decelerate_on_trigger : Bool
deriving DecidableEq, Repr

/-- Embedding of ZProbe::setDecelerateOnTrigger.  Returns the updated
  configuration and whether the refusal message was printed. -/
def setDecelerateOnTrigger (cfg : DecelCfg) (t : Bool) : DecelCfg × Bool :=
  if cfg.decelerate_runout = -1 then
    ({ cfg with decelerate_on_trigger := false }, true)
  else
    ({ cfg with decelerate_on_trigger := t }, false)

/-! ## Probe driver configuration and return_probe

  The feedrates and geometry flags read from config
  (ZProbe::on_config_reload).  z_steps_per_mm abstracts
  STEPPER[Z_AXIS]->get_steps_per_mm(). -/

structure ProbeCfg where
  slow_feedrate : ℚ
  fast_feedrate : ℚ
  z_steps_per_mm : ℚ
  reverse_z : Bool
  is_delta : Bool
  is_rdelta : Bool
deriving DecidableEq, Repr

/-- Embedding of ZProbe::zsteps_to_mm. -/
def zsteps_to_mm (cfg : ProbeCfg) (steps : ℚ) : ℚ :=
  steps / cfg.z_steps_per_mm

/-- Observable motion commands issued by the probe driver.  coordMove is
  ZProbe::coordinated_move with optional axis targets (NAN meaning absent),
  stepperMove is StepperMotor::move(direction, steps) on one actuator. -/
inductive MotionCmd
  | coordMove (x y z : Option ℚ) (feedrate : ℚ) (relative : Bool)
  | stepperMove (axis : Fin 3) (direction : Bool) (steps : Nat)
deriving DecidableEq, Repr

/-- Embedding of ZProbe::return_probe (lines 313-354).  The body computes
  fr as twice the slow feedrate capped at the fast feedrate, issues one
  relative coordinated move in Z by zsteps_to_mm(steps), then zero-distance
  moves on all three actuators, and returns true.  The reverse parameter is
  accepted but never read (the code that read it is commented out). -/
def return_probe (cfg : ProbeCfg) (steps : ℤ) (reverse : Bool) :
    List MotionCmd × Bool :=
  let fr0 := cfg.slow_feedrate * 2
  let fr := if fr0 > cfg.fast_feedrate then cfg.fast_feedrate else fr0
  ([ MotionCmd.coordMove none none (some (zsteps_to_mm cfg (steps : ℚ))) fr true,
     MotionCmd.stepperMove 0 false 0,
     MotionCmd.stepperMove 1 false 0,
     MotionCmd.stepperMove 2 false 0 ], true)

/-! ## G-code dispatcher entry (ZProbe::on_gcode_received)

  We model the incoming G-code object by the fields the dispatcher reads,
  the probe pin by its connected and active (pin.get()) states, and the
  effects of the handler by a list of emitted messages and a list of
  actions (motion, probe cycles, strategy dispatch).  Branches that the
  claims never reach past their guards are represented by abstract action
  markers. -/

structure GcodeIn where
  has_g : Bool
  g : Nat
  subcode : Nat
  has_m : Bool
  m : Nat
deriving DecidableEq, Repr

inductive Msg
  | notConnected
  | triggeredBeforeMove
  | onlySubcodes2and3
deriving DecidableEq, Repr

/-- Observable effects of on_gcode_received beyond messages: queue waits,
  probe cycles, straight probes, strategy dispatch and M-code handling.
  Every one of these is only reached after the entry guards pass. -/
inductive DispatchAction
  | waitQueue
  | probeCycleG30
  | strategyDispatch (g : Nat)
  | straightProbe (subcode : Nat)
  | mcodeWork (m : Nat)
deriving DecidableEq, Repr

/-- Embedding of the entry guards and branch structure of
  ZProbe::on_gcode_received (lines 383-572).  For G29-G32 the handler
  first requires a connected probe pin and an inactive pin read before any
  motion or probe work; for G38 it additionally validates the subcode.
  The work done after the guards is abstracted into DispatchAction values;
  the claims only concern what is (not) reached when the guards fail. -/
def on_gcode_received (pinConnected pinActive : Bool) (gc : GcodeIn) :
    List Msg × List DispatchAction :=
  if gc.has_g ∧ 29 ≤ gc.g ∧ gc.g ≤ 32 then
    if ¬pinConnected then ([Msg.notConnected], [])
    else if pinActive then ([Msg.triggeredBeforeMove], [])
    else if gc.g = 30 then ([], [DispatchAction.waitQueue, DispatchAction.probeCycleG30])
    else ([], [DispatchAction.strategyDispatch gc.g])
  else if gc.has_g ∧ gc.g = 38 then
    if gc.subcode ≠ 2 ∧ gc.subcode ≠ 3 then ([Msg.onlySubcodes2and3], [])
    else if ¬pinConnected then ([Msg.notConnected], [])
    else if pinActive then ([Msg.triggeredBeforeMove], [])
    else ([], [DispatchAction.waitQueue, DispatchAction.straightProbe gc.subcode])
  else if gc.has_m then ([], [DispatchAction.mcodeWork gc.m])
  else ([], [])

/-! ## G32 handler of ComprehensiveDeltaStrategy

  ComprehensiveDeltaStrategy::handleGcode, G32 branch (lines 933-975):
  waits for an empty queue, runs calibrate_delta_endstops unless the R
  letter is present, then calibrate_delta_radius unless the E letter is
  present, aborting with a message after the first failing sub-step.  The
  geometry dirty flag (geom_dirty) is not touched anywhere on this path. -/

structure G32Params where
  hasR : Bool
  hasE : Bool
deriving DecidableEq, Repr

inductive G32Step
  | waitQueue
  | requireCleanGeometry
  | calEndstops
  | calRadius
  | clearDirtyFlag
  | failMsg
  | doneMsg
deriving DecidableEq, Repr

/-- Embedding of the G32 branch of ComprehensiveDeltaStrategy::handleGcode.
  Inputs: the R/E letters of the command, whether each calibration
  sub-step would succeed, and the current geom_dirty flag.  Output: the
  ordered trace of steps taken and the geom_dirty flag afterwards. -/
def handleG32 (p : G32Params) (endstops_ok radius_ok dirty : Bool) :
    List G32Step × Bool :=
  let t1 : List G32Step := [G32Step.waitQueue]
  if ¬p.hasR ∧ ¬endstops_ok then
    (t1 ++ [G32Step.calEndstops, G32Step.failMsg], dirty)
  else
    let t2 := t1 ++ (if ¬p.hasR then [G32Step.calEndstops] else [])
    if ¬p.hasE ∧ ¬radius_ok then
      (t2 ++ [G32Step.calRadius, G32Step.failMsg], dirty)
    else
      let t3 := t2 ++ (if ¬p.hasE then [G32Step.calRadius] else [])
      (t3 ++ [G32Step.doneMsg], dirty)

/-! ## Endstop-trim calibration (ComprehensiveDeltaStrategy::calibrate_delta_endstops)

  The probing hardware is abstracted by an environment: given the machine
  endstop trims currently in force, probing the bases of the three towers
  yields three depths in millimetres (already through zsteps_to_mm), or
  fails (do_probe_at returning false).  The endstop data bus (set_trim and
  get_trim through PublicData) is abstracted by a success flag and the
  stored trim triple. -/

def max3 (a b c : ℚ) : ℚ := max (max a b) c

def min3 (a b c : ℚ) : ℚ := min (min a b) c

structure Trims where
  x : ℚ
  y : ℚ
  z : ℚ
deriving DecidableEq, Repr

structure CalEnv where
  probe_towers : Trims → Option (ℚ × ℚ × ℚ)
  get_trim : Option Trims
  set_trim_ok : Bool

/-- G-code parameters read by calibrate_delta_endstops: I overrides the
  target, K selects keep mode.  The J probe-radius override only moves the
  probe points and is absorbed into the probing environment. -/
structure ESGcode where
  targetI : Option ℚ
  keepK : Bool
deriving DecidableEq, Repr

/-- Outcomes of the endstop calibration.  ok carries the machine trims in
  force at exit, the depths of the last probe round, and whether the
  normalization step ran; nullStream marks the evaluation of gcode->stream
  with a null gcode. -/
inductive ESOutcome
  | ok (machineTrims : Trims) (depths : ℚ × ℚ × ℚ) (normalized : Bool)
  | fail
  | nullStream
deriving DecidableEq, Repr

/-- Embedding of the default target 0.03F at line 1592, overridable by the
  I letter (line 1594). -/
def esTarget (gc : Option ESGcode) : ℚ :=
  match gc with
  | none => 3 / 100
  | some g => g.targetI.getD (3 / 100)

/-- Embedding of the main endstop leveling loop (lines 1667-1731) plus the
  post-loop check (lines 1733-1741).  Arguments: remaining iterations,
  trimscale, last_deviation, the trim values about to be written by
  set_trim at the top of the iteration, and the depths of the previous
  probe round (for the post-loop check, which re-reads the minmax of the
  last probes). -/
def cde_loop (env : CalEnv) (gc : Option ESGcode) (target : ℚ) :
    Nat → ℚ → ℚ → Trims → (ℚ × ℚ × ℚ) → ESOutcome
  | 0, _, last_dev, trims, depths =>
    if last_dev > target then ESOutcome.fail
    else ESOutcome.ok trims depths false
  | fuel + 1, trimscale, last_dev, trims, _ =>
    if gc.isNone then ESOutcome.nullStream
    else if ¬env.set_trim_ok then ESOutcome.fail
    else
      match env.probe_towers trims with
      | none => ESOutcome.fail
      | some (t1z, t2z, t3z) =>
        let lo := min3 t1z t2z t3z
        let hi := max3 t1z t2z t3z
        let deviation := hi - lo
        if deviation > target then
          let ts2 :=
            if deviation ≥ last_dev ∧ trimscale * (95 / 100) ≥ 9 / 10 then
              trimscale * (9 / 10)
            else trimscale
          cde_loop env gc target fuel ts2 deviation
            ⟨trims.x + (lo - t1z) * ts2,
             trims.y + (lo - t2z) * ts2,
             trims.z + (lo - t3z) * ts2⟩
            (t1z, t2z, t3z)
        else
          let m := max3 trims.x trims.y trims.z
          let nt : Trims := ⟨trims.x - m, trims.y - m, trims.z - m⟩
          if gc.isNone then ESOutcome.nullStream
          else if ¬env.set_trim_ok then ESOutcome.fail
          else ESOutcome.ok nt (t1z, t2z, t3z) true

/-- Embedding of the initial probe round of calibrate_delta_endstops
  (lines 1635-1662): probe the three tower bases, exit successfully right
  away when the spread is already within target (without normalizing),
  otherwise seed last_deviation and apply the first trim adjustment with
  trimscale 1.3, then enter the 20-iteration loop. -/
def cde_start (env : CalEnv) (gc : Option ESGcode) (target : ℚ) (trims : Trims) :
    ESOutcome :=
  match env.probe_towers trims with
  | none => ESOutcome.fail
  | some (t1z, t2z, t3z) =>
    let lo := min3 t1z t2z t3z
    let hi := max3 t1z t2z t3z
    if hi - lo ≤ target then ESOutcome.ok trims (t1z, t2z, t3z) false
    else
      let ts : ℚ := 13 / 10
      cde_loop env gc target 20 ts (hi - lo)
        ⟨trims.x + (lo - t1z) * ts,
         trims.y + (lo - t2z) * ts,
         trims.z + (lo - t3z) * ts⟩
        (t1z, t2z, t3z)

/-- Embedding of ComprehensiveDeltaStrategy::calibrate_delta_endstops
  (lines 1588-1742).  In the default non-keep path the source evaluates
  gcode->stream as the argument of set_trim(0,0,0,...) with no null guard;
  a null gcode is modelled by gc = none and that evaluation by the
  nullStream outcome.  In keep mode the current trim is read from the
  endstop bus and iteration starts from it. -/
def calibrate_delta_endstops (gc : Option ESGcode) (env : CalEnv) : ESOutcome :=
  let keep := (gc.map ESGcode.keepK).getD false
  let target := esTarget gc
  if keep then
    match env.get_trim with
    | none => ESOutcome.fail
    | some t => cde_start env gc target t
  else
    if gc.isNone then ESOutcome.nullStream
    else if ¬env.set_trim_ok then ESOutcome.fail
    else cde_start env gc target ⟨0, 0, 0⟩

/-! ## Delta-radius calibration (ComprehensiveDeltaStrategy::calibrate_delta_radius)

  The probing hardware is abstracted by an environment: a fixed
  center-probe step count (the center is probed once, before the loop),
  and per-iteration tower-base step counts as a function of the delta
  radius currently in force.  spm abstracts Z_STEPS_PER_MM; the initial
  radius abstracts the read of options at the R key from the arm
  solution. -/

structure RadiusEnv where
  probe_center : Option ℤ
  probe_towers : ℚ → Option (ℤ × ℤ × ℤ)
  initial_radius : Option ℚ
  spm : ℚ

structure DRGcode where
  targetI : Option ℚ
deriving DecidableEq, Repr

/-- Outcomes of the radius calibration.  ok carries the delta radius in
  force at exit, the last computed difference d = cmm - m, the number of
  loop iterations executed, and whether the loop exited through the
  convergence test; nullGcode marks the evaluation of gcode->has_letter
  with a null gcode. -/
inductive DROutcome
  | ok (radius lastd : ℚ) (iters : Nat) (converged : Bool)
  | fail
  | nullGcode
deriving DecidableEq, Repr

def drTarget (gc : DRGcode) : ℚ := gc.targetI.getD (3 / 100)

/-- Embedding of the 10-iteration loop of calibrate_delta_radius
  (lines 1784-1814): probe the three tower bases, average, compare against
  the center reference, stop on |d| <= target, otherwise bump the radius by
  d * 2.5 and continue.  When the fuel runs out the source falls through to
  return true (line 1815) with the last values in force. -/
def cdr_loop (env : RadiusEnv) (target cmm : ℚ) : Nat → ℚ → ℚ → DROutcome
  | 0, r, lastd => DROutcome.ok r lastd 10 false
  | fuel + 1, r, _ =>
    match env.probe_towers r with
    | none => DROutcome.fail
    | some (dx, dy, dz) =>
      let m := (((dx : ℚ) + (dy : ℚ) + (dz : ℚ)) / 3) / env.spm
      let d := cmm - m
      if |d| ≤ target then DROutcome.ok r d (10 - fuel) true
      else cdr_loop env target cmm fuel (r + d * (5 / 2)) d

/-- Embedding of ComprehensiveDeltaStrategy::calibrate_delta_radius
  (lines 1750-1816).  The source evaluates gcode->has_letter with no null
  guard before anything else; a null gcode is modelled by gc = none and
  that evaluation by the nullGcode outcome.  A zero or unavailable delta
  radius from the arm solution is the config-error exit (lines 1777-1780). -/
def calibrate_delta_radius (gc : Option DRGcode) (env : RadiusEnv) : DROutcome :=
  match gc with
  | none => DROutcome.nullGcode
  | some g =>
    let target := drTarget g
    match env.probe_center with
    | none => DROutcome.fail
    | some dc =>
      let cmm := (dc : ℚ) / env.spm
      let r0 := env.initial_radius.getD 0
      if r0 = 0 then DROutcome.fail
      else cdr_loop env target cmm 10 r0 0

/-! ## require_clean_geometry (lines 1041-1052) -/

/-- Modelled from the spec: the declaration of calibrate_delta_endstops and
  calibrate_delta_radius with their default argument lives in
  ComprehensiveDeltaStrategy.h, which is not among the sources; the
  argument-free calls in require_clean_geometry therefore pass the default
  G-code object, the null pointer, modelled as none.  With the dirty flag
  set, both calibrations are invoked with none and their results are
  discarded, then the dirty flag is cleared unconditionally. -/
def require_clean_geometry (dirty : Bool) (esEnv : CalEnv) (drEnv : RadiusEnv) :
    Option (ESOutcome × DROutcome) × Bool :=
  if dirty then
    (some (calibrate_delta_endstops none esEnv, calibrate_delta_radius none drEnv), false)
  else (none, dirty)

/-! ## Deceleration tick handler (ZProbe::decelerate, lines 687-735)

  Per-axis state read and written by the handler.  stepped, the actuator
  step counter, is owned by the stepper driver and only read here: each
  tick receives the current reading as an input.  stopped abstracts the
  effect of STEPPER->move(0, 0): is_moving goes false and the acceleration
  tick stops invoking the handler for this axis. -/

structure DecelState where
  rate : Nat
  runout_steps : Nat
  steps_at_decel_end : Nat
  has_exceeded_runout : Bool
  stopped : Bool
deriving DecidableEq, Repr

/-- Embedding of ZProbe::decelerate for one axis: stepped is the current
  actuator step-counter reading, rate_decrease is
  floor((acc / acceleration_ticks_per_second) * steps_per_mm).  If the
  counter has reached runout_steps the axis hard-stops with the overrun
  flag; otherwise the rate decreases, snapping to zero at the 20.1
  steps-per-second floor (an integer rate, so at 20 or below), and a zero
  rate hard-stops the axis recording steps_at_decel_end. -/
def decelerate (stepped rate_decrease : Nat) (s : DecelState) : DecelState :=
  if s.runout_steps ≤ stepped then
    { s with rate := 0, steps_at_decel_end := stepped,
             has_exceeded_runout := true, stopped := true }
  else
    let cr : ℤ :=
      if 0 < s.rate then
        if (s.rate : ℤ) - (rate_decrease : ℤ) ≤ 20 then 0
        else (s.rate : ℤ) - (rate_decrease : ℤ)
      else (s.rate : ℤ)
    if cr = 0 then
      { s with rate := 0, steps_at_decel_end := stepped, stopped := true }
    else { s with rate := cr.toNat }

/-- One deceleration phase: the acceleration ticker fires a sequence of
  ticks, each carrying the step-counter reading and the rate decrease for
  that tick; once the axis is stopped (is_moving false) the tick handler is
  no longer invoked for it. -/
def runDecel (ticks : List (Nat × Nat)) (s : DecelState) : DecelState :=
  ticks.foldl (fun st t => if st.stopped then st else decelerate t.1 t.2 st) s

/-- Embedding of the runout limit computation of wait_for_probe, line 233:
  runout_steps = (uint32_t)((uint32_t)steps + decelerate_runout * Z_STEPS_PER_MM),
  the float sum truncated toward zero; with steps integral and the product
  non-negative this is steps plus the floor of the product. -/
def runoutSteps (steps_at_trigger : Nat) (decelerate_runout spm : ℚ) : Nat :=
  steps_at_trigger + (⌊decelerate_runout * spm⌋).toNat

end ZProbeModel

namespace ZProbeModel

/-! ## Theorems for claims C1, C6, C7, C10 -/

/-- C1: the claim states that on a delta the not-triggered exit requires all
  of X, Y and Z stopped, so it cannot fire while X is still moving.  The
  embedded exit condition, translated from ZProbe.cpp lines 182-187,
  evaluates to true in the state where the X actuator is still moving and Y
  and Z are stopped: the loop returns NotTriggered while X is moving,
  because the source condition tests Z twice and never X.  This contradicts
  both the claim and the source comment above the condition. -/
theorem c1_exit_fires_while_x_moving :
    notTriggeredExit true ⟨true, false, false⟩ = true ∧
    (MovingState.mk true false false).xMoving = true := by
  constructor <;> rfl

/-- C6 counterexample: the claim states that enabling decelerate_on_trigger
  is rejected for every decelerate_runout that is not a set non-negative
  value.  With decelerate_runout = -2 (negative, not the sentinel -1), the
  request is honoured: the flag ends up true while decelerate_runout < 0. -/
theorem c6_counterexample :
    (setDecelerateOnTrigger ⟨-2, false⟩ true).1.decelerate_on_trigger = true ∧
    (-2 : ℚ) < 0 := by
  constructor
  · rfl
  · norm_num

/-- C6 amended: setDecelerateOnTrigger rejects the request (forces the flag
  off and emits the message) exactly when decelerate_runout equals the
  sentinel -1; for every other value, negative ones included, the flag is
  set to the requested value.  Consequently whenever the flag ends up true
  the runout is not the sentinel, but it need not be non-negative. -/
theorem c6_sentinel_only (cfg : DecelCfg) (t : Bool) :
    (cfg.decelerate_runout = -1 →
      setDecelerateOnTrigger cfg t = ({ cfg with decelerate_on_trigger := false }, true)) ∧
    (cfg.decelerate_runout ≠ -1 →
      setDecelerateOnTrigger cfg t = ({ cfg with decelerate_on_trigger := t }, false)) ∧
    ((setDecelerateOnTrigger cfg t).1.decelerate_on_trigger = true →
      cfg.decelerate_runout ≠ -1 ∧ t = true) := by
  by_cases h : cfg.decelerate_runout = -1
  · refine ⟨fun _ => ?_, fun hn => absurd h hn, fun hflag => ?_⟩
    · simp [setDecelerateOnTrigger, h]
    · exfalso
      simp [setDecelerateOnTrigger, h] at hflag
  · refine ⟨fun h1 => absurd h1 h, fun _ => ?_, fun hflag => ⟨h, ?_⟩⟩
    · simp [setDecelerateOnTrigger, h]
    · simpa [setDecelerateOnTrigger, h] using hflag

/-- C6 witness: the amended statement applied at the concrete configuration
  with runout -2 and an enable request. -/
theorem c6_sentinel_only_witness :
    setDecelerateOnTrigger ⟨-2, false⟩ true =
      ({ decelerate_runout := -2, decelerate_on_trigger := true }, false) :=
  (c6_sentinel_only ⟨-2, false⟩ true).2.1 (by norm_num)

/-- C7 counterexample: the claim states the cycle triggers on the
  debounce_count-th consecutive active read.  With debounce_count = 1, a
  single active read does not trigger: the source compares the counter
  before incrementing, so it needs debounce_count + 1 consecutive active
  reads. -/
theorem c7_counterexample :
    waitReads 1 0 [true] = false := by
  rfl

/-- Helper: from a counter value d that has not yet passed debounce_count,
  a run of k consecutive active reads triggers exactly when d + k exceeds
  debounce_count. -/
theorem waitReads_replicate (c : Nat) :
    ∀ (k d : Nat), d ≤ c → waitReads c d (List.replicate k true) = decide (c < d + k) := by
  intro k
  induction k with
  | zero =>
    intro d hd
    have h1 : waitReads c d (List.replicate 0 true) = false := rfl
    rw [h1, eq_comm, decide_eq_false_iff_not]
    omega
  | succ n ih =>
    intro d hd
    rw [List.replicate_succ]
    by_cases h : d < c
    · have h1 : waitReads c d (true :: List.replicate n true) =
          waitReads c (d + 1) (List.replicate n true) := by
        simp [waitReads, h]
      rw [h1, ih (d + 1) h]
      simp only [decide_eq_decide]
      omega
    · have h1 : waitReads c d (true :: List.replicate n true) = true := by
        simp [waitReads, h]
      rw [h1, eq_comm]
      simp only [decide_eq_true_eq]
      omega

/-- C7 amended: an inactive read resets the debounce counter to 0, and the
  trigger fires after exactly debounce_count + 1 consecutive active reads
  (the source compares the counter against debounce_count before
  incrementing, so the trigger fires on the read that finds the counter
  already at debounce_count): debounce_count consecutive active reads do
  not yet trigger, debounce_count + 1 do, and a run interrupted by an
  inactive read restarts from zero. -/
theorem c7_trigger_after_count_plus_one (c : Nat) (rs : List Bool) :
    waitReads c 0 (List.replicate c true) = false ∧
    waitReads c 0 (List.replicate (c + 1) true) = true ∧
    (∀ d : Nat, waitReads c d (false :: rs) = waitReads c 0 rs) := by
  refine ⟨?_, ?_, ?_⟩
  · rw [waitReads_replicate c c 0 (Nat.zero_le c)]
    simp
  · rw [waitReads_replicate c (c + 1) 0 (Nat.zero_le c)]
    simp
  · intro d
    rfl

/-- C7 witness: instantiation of the amended statement at debounce_count 2
  with an explicit tail of reads. -/
theorem c7_trigger_after_count_plus_one_witness :
    waitReads 2 0 (List.replicate 2 true) = false ∧
    waitReads 2 0 (List.replicate 3 true) = true ∧
    (∀ d : Nat, waitReads 2 d (false :: [true]) = waitReads 2 0 [true]) :=
  c7_trigger_after_count_plus_one 2 [true]

/-- C8: for every probing command (G29 through G32, and G38.2/G38.3), if
  the probe pin reads active at entry the handler emits a message and
  performs no action at all: no queue wait, no motion, no probe cycle, no
  strategy dispatch.  This holds whether or not the pin is configured as
  connected (an unconnected pin is refused with its own message, still with
  no actions). -/
theorem c8_refused_when_pin_active (pc : Bool) (gc : GcodeIn)
    (hg : gc.has_g = true)
    (hcmd : (29 ≤ gc.g ∧ gc.g ≤ 32) ∨ (gc.g = 38 ∧ (gc.subcode = 2 ∨ gc.subcode = 3))) :
    (on_gcode_received pc true gc).2 = [] ∧ (on_gcode_received pc true gc).1 ≠ [] := by
  rcases hcmd with ⟨h1, h2⟩ | ⟨h1, h2⟩
  · by_cases hc : pc <;>
      simp [on_gcode_received, hg, h1, h2, hc]
  · have hn : ¬(gc.has_g = true ∧ 29 ≤ gc.g ∧ gc.g ≤ 32) := by
      rintro ⟨_, _, h3⟩
      omega
    have hs : ¬(gc.subcode ≠ 2 ∧ gc.subcode ≠ 3) := by
      rcases h2 with h2 | h2 <;> simp [h2]
    by_cases hc : pc <;>
      simp [on_gcode_received, hn, hg, h1, hs, hc]

/-- C8 witness: a G30 command arriving with the probe pin connected and
  active is refused with a message and produces no actions. -/
theorem c8_refused_when_pin_active_witness :
    (on_gcode_received true true ⟨true, 30, 0, false, 0⟩).2 = [] ∧
    (on_gcode_received true true ⟨true, 30, 0, false, 0⟩).1 ≠ [] :=
  c8_refused_when_pin_active true ⟨true, 30, 0, false, 0⟩ rfl (Or.inl (by decide))

/-- C5 counterexample: the claim states that G32 (without R and E flags)
  runs require_clean_geometry first and clears the geometry dirty flag at
  the end of a successful endstop plus radius calibration.  On the embedded
  handler, a G32 with no R and no E whose two sub-calibrations both succeed
  leaves the dirty flag set and its trace contains neither a
  require_clean_geometry step nor a clear-dirty-flag step. -/
theorem c5_counterexample :
    (handleG32 ⟨false, false⟩ true true true).2 = true ∧
    G32Step.requireCleanGeometry ∉ (handleG32 ⟨false, false⟩ true true true).1 ∧
    G32Step.clearDirtyFlag ∉ (handleG32 ⟨false, false⟩ true true true).1 := by
  decide

/-- C5 amended: the G32 branch waits for an empty queue, runs the endstop
  strategy exactly when the R letter is absent, then the delta-radius
  strategy exactly when the E letter is absent and no earlier sub-step
  failed, aborting with a message after the first failure; it never invokes
  require_clean_geometry and never modifies the geometry dirty flag. -/
theorem c5_g32_trace (p : G32Params) (e r d : Bool) :
    (handleG32 p e r d).2 = d ∧
    G32Step.requireCleanGeometry ∉ (handleG32 p e r d).1 ∧
    G32Step.clearDirtyFlag ∉ (handleG32 p e r d).1 ∧
    (G32Step.calEndstops ∈ (handleG32 p e r d).1 ↔ p.hasR = false) ∧
    (G32Step.calRadius ∈ (handleG32 p e r d).1 ↔
      p.hasE = false ∧ (p.hasR = true ∨ e = true)) := by
  rcases p with ⟨hR, hE⟩
  cases hR <;> cases hE <;> cases e <;> cases r <;> cases d <;> decide

/-- Helper: subtracting the maximum of three values from each of them
  leaves a triple whose maximum is zero. -/
theorem max3_sub_max3 (a b c : ℚ) :
    max3 (a - max3 a b c) (b - max3 a b c) (c - max3 a b c) = 0 := by
  unfold max3
  rw [max_sub_sub_right, max_sub_sub_right]
  simp

/-- Helper: every successful exit of the endstop leveling loop entered with
  a deviation still above target goes through the normalization branch:
  the last probed depths are within target and the trims written back have
  maximum zero. -/
theorem cde_loop_ok (env : CalEnv) (gc : Option ESGcode) (target : ℚ) :
    ∀ (fuel : Nat) (ts last_dev : ℚ) (trims : Trims) (d0 : ℚ × ℚ × ℚ)
      (mt : Trims) (dep : ℚ × ℚ × ℚ) (norm : Bool),
      target < last_dev →
      cde_loop env gc target fuel ts last_dev trims d0 = ESOutcome.ok mt dep norm →
      max3 dep.1 dep.2.1 dep.2.2 - min3 dep.1 dep.2.1 dep.2.2 ≤ target ∧
      norm = true ∧ max3 mt.x mt.y mt.z = 0 := by
  intro fuel
  induction fuel with
  | zero =>
    intro ts last_dev trims d0 mt dep norm hlt h
    exfalso
    simp only [cde_loop] at h
    rw [if_pos hlt] at h
    exact ESOutcome.noConfusion h
  | succ n ih =>
    intro ts last_dev trims d0 mt dep norm hlt h
    simp only [cde_loop] at h
    split at h
    · exact absurd h (by simp)
    · split at h
      · exact absurd h (by simp)
      · split at h
        · exact absurd h (by simp)
        · rename_i t1z t2z t3z heq
          split at h
          · rename_i hdev
            exact ih _ _ _ _ _ _ _ hdev h
          · rename_i hdev
            injection h with h1 h2 h3
            subst h1
            subst h2
            refine ⟨le_of_not_lt hdev, h3.symm, ?_⟩
            exact max3_sub_max3 trims.x trims.y trims.z

/-- Helper: characterization of cde_start successes: the last probed depths
  are within target, a success flagged as normalized has max trim zero, and
  a success not flagged as normalized is the early exit returning the
  starting trims unchanged. -/
theorem cde_start_ok (env : CalEnv) (gc : Option ESGcode) (target : ℚ)
    (trims mt : Trims) (dep : ℚ × ℚ × ℚ) (norm : Bool)
    (h : cde_start env gc target trims = ESOutcome.ok mt dep norm) :
    max3 dep.1 dep.2.1 dep.2.2 - min3 dep.1 dep.2.1 dep.2.2 ≤ target ∧
    (norm = true → max3 mt.x mt.y mt.z = 0) ∧
    (norm = false → mt = trims) := by
  simp only [cde_start] at h
  split at h
  · exact absurd h (by simp)
  · rename_i t1z t2z t3z heq
    split at h
    · rename_i hle
      injection h with h1 h2 h3
      subst h1
      subst h2
      exact ⟨hle, fun hn => absurd (h3.trans hn) (by simp), fun _ => rfl⟩
    · rename_i hgt
      have ⟨h1, h2, h3⟩ :=
        cde_loop_ok env gc target 20 (13 / 10)
          (max3 t1z t2z t3z - min3 t1z t2z t3z) _ _ mt dep norm
          (lt_of_not_le hgt) h
      exact ⟨h1, fun _ => h3, fun hn => absurd (h2.symm.trans hn) (by simp)⟩

/-- Concrete probing environment for claim C2: the bed reads a uniform
  depth of 5 mm at the three towers whatever the trims, and the endstop bus
  holds trims (-1, -1, -1). -/
def c2Env : CalEnv :=
  { probe_towers := fun _ => some (5, 5, 5),
    get_trim := some ⟨-1, -1, -1⟩,
    set_trim_ok := true }

/-- C2 counterexample: the claim states every successful endstop
  calibration normalizes so that max(trim) = 0.  A run in keep mode whose
  initial probes are already within target returns success through the
  early exit without normalizing: the machine trims stay (-1, -1, -1),
  whose maximum is -1, not 0. -/
theorem c2_counterexample :
    calibrate_delta_endstops (some ⟨none, true⟩) c2Env =
      ESOutcome.ok ⟨-1, -1, -1⟩ (5, 5, 5) false ∧
    max3 (-1) (-1) (-1) ≠ 0 := by
  constructor
  · norm_num [calibrate_delta_endstops, cde_start, c2Env, esTarget, max3, min3]
  · norm_num [max3]

/-- C2 amended: every successful endstop calibration leaves the last-probed
  tower depths within target (max - min <= target); the trim normalization
  max(trim) = 0 holds on every success that runs the leveling loop and on
  every success in the default non-keep mode, but the early already-within-
  spec exit in keep mode returns the pre-existing trims unnormalized. -/
theorem c2_success_properties (gc : Option ESGcode) (env : CalEnv)
    (mt : Trims) (dep : ℚ × ℚ × ℚ) (norm : Bool)
    (h : calibrate_delta_endstops gc env = ESOutcome.ok mt dep norm) :
    max3 dep.1 dep.2.1 dep.2.2 - min3 dep.1 dep.2.1 dep.2.2 ≤ esTarget gc ∧
    (norm = true → max3 mt.x mt.y mt.z = 0) ∧
    ((gc.map ESGcode.keepK).getD false = false → max3 mt.x mt.y mt.z = 0) := by
  simp only [calibrate_delta_endstops] at h
  split at h
  · rename_i hkeep
    split at h
    · exact absurd h (by simp)
    · rename_i t ht
      obtain ⟨h1, h2, _⟩ := cde_start_ok env gc (esTarget gc) t mt dep norm h
      refine ⟨h1, h2, fun hkf => ?_⟩
      rw [hkf] at hkeep
      exact absurd hkeep (by simp)
  · split at h
    · exact absurd h (by simp)
    · split at h
      · exact absurd h (by simp)
      · obtain ⟨h1, h2, h3⟩ := cde_start_ok env gc (esTarget gc) ⟨0, 0, 0⟩ mt dep norm h
        refine ⟨h1, h2, fun _ => ?_⟩
        cases norm with
        | true => exact h2 rfl
        | false =>
          rw [h3 rfl]
          norm_num [max3]

/-- C2 witness: the amended statement applied at a non-keep run on the
  uniform bed, which takes the early exit with zero trims. -/
theorem c2_success_properties_witness :
    max3 5 5 5 - min3 5 5 5 ≤ esTarget (some ⟨none, false⟩) ∧
    (false = true → max3 0 0 0 = 0) ∧
    (((some (ESGcode.mk none false)).map ESGcode.keepK).getD false = false →
      max3 0 0 0 = 0) :=
  c2_success_properties (some ⟨none, false⟩) c2Env ⟨0, 0, 0⟩ (5, 5, 5) false
    (by norm_num [calibrate_delta_endstops, cde_start, c2Env, esTarget, max3, min3])

/-- Helper: every success of the delta-radius loop runs at most 10
  iterations; a success flagged converged has its difference within target,
  and a success not flagged converged is the fall-through after exactly 10
  iterations. -/
theorem cdr_loop_ok (env : RadiusEnv) (target cmm : ℚ) :
    ∀ (fuel : Nat) (r lastd r2 d2 : ℚ) (n : Nat) (conv : Bool),
      fuel ≤ 10 →
      cdr_loop env target cmm fuel r lastd = DROutcome.ok r2 d2 n conv →
      n ≤ 10 ∧ (conv = true → |d2| ≤ target) ∧ (conv = false → n = 10) := by
  intro fuel
  induction fuel with
  | zero =>
    intro r lastd r2 d2 n conv hf h
    simp only [cdr_loop] at h
    injection h with h1 h2 h3 h4
    subst h3
    subst h4
    exact ⟨le_refl 10, fun hc => absurd hc (by simp), fun _ => rfl⟩
  | succ m ih =>
    intro r lastd r2 d2 n conv hf h
    simp only [cdr_loop] at h
    split at h
    · exact absurd h (by simp)
    · rename_i dx dy dz heq
      split at h
      · rename_i hle
        injection h with h1 h2 h3 h4
        subst h2
        subst h3
        subst h4
        exact ⟨by omega, fun _ => hle, fun hc => absurd hc (by simp)⟩
      · exact ih _ _ _ _ _ _ (by omega) h

/-- Concrete probing environment for claim C3: the center reads 1000 steps
  but the towers always read 0 steps whatever the radius, so the difference
  never shrinks. -/
def c3Env : RadiusEnv :=
  { probe_center := some 1000,
    probe_towers := fun _ => some (0, 0, 0),
    initial_radius := some 50,
    spm := 100 }

/-- C3 counterexample: the claim states a run that exhausts the 10
  iteration budget without reaching the target is not reported as success.
  On an environment where the center/tower difference stays at 10 mm, the
  loop runs its 10 iterations (growing the radius by 25 each time) and the
  function still returns success with the difference at 10 mm, far above
  the 0.03 mm target. -/
theorem c3_counterexample :
    calibrate_delta_radius (some ⟨none⟩) c3Env = DROutcome.ok 300 10 10 false ∧
    ¬(|(10 : ℚ)| ≤ 3 / 100) := by
  constructor
  · norm_num [calibrate_delta_radius, cdr_loop, c3Env, drTarget]
  · norm_num

/-- C3 amended: a successful delta-radius calibration either exited through
  the convergence test, in which case |center_depth - mean(tower_depths)|
  <= target, or fell through after exactly 10 iterations, in which case the
  nonconvergent last difference is reported as success all the same; at
  most 10 iterations ever run. -/
theorem c3_success_characterization (g : DRGcode) (env : RadiusEnv)
    (r d : ℚ) (n : Nat) (conv : Bool)
    (h : calibrate_delta_radius (some g) env = DROutcome.ok r d n conv) :
    n ≤ 10 ∧ (conv = true → |d| ≤ drTarget g) ∧ (conv = false → n = 10) := by
  simp only [calibrate_delta_radius] at h
  split at h
  · exact absurd h (by simp)
  · rename_i dc heq
    split at h
    · exact absurd h (by simp)
    · exact cdr_loop_ok env (drTarget g) ((dc : ℚ) / env.spm) 10 _ 0 r d n conv
        (le_refl 10) h

/-- Concrete converging environment for the C3 witness: center and towers
  agree at 1000 steps, so the first iteration converges. -/
def c3WitnessEnv : RadiusEnv :=
  { probe_center := some 1000,
    probe_towers := fun _ => some (1000, 1000, 1000),
    initial_radius := some 50,
    spm := 100 }

/-- C3 witness: the amended statement applied at a converging run, which
  succeeds on its first iteration with difference 0. -/
theorem c3_success_characterization_witness :
    (1 : Nat) ≤ 10 ∧ (true = true → |(0 : ℚ)| ≤ drTarget ⟨none⟩) ∧
    (true = false → (1 : Nat) = 10) :=
  c3_success_characterization ⟨none⟩ c3WitnessEnv 50 0 1 true
    (by norm_num [calibrate_delta_radius, cdr_loop, c3WitnessEnv, drTarget])

/-- C9: entering require_clean_geometry with the dirty flag set invokes
  calibrate_delta_endstops and calibrate_delta_radius with no G-code
  object (none, the null default of the header); for every probing
  environment the endstop calibration then evaluates gcode->stream in its
  default non-keep path and the radius calibration evaluates
  gcode->has_letter, reaching the null-dereference outcome: those branches
  are reachable, not dead. -/
theorem c9_null_gcode_paths (esEnv : CalEnv) (drEnv : RadiusEnv) :
    (require_clean_geometry true esEnv drEnv).1 =
      some (calibrate_delta_endstops none esEnv, calibrate_delta_radius none drEnv) ∧
    calibrate_delta_endstops none esEnv = ESOutcome.nullStream ∧
    calibrate_delta_radius none drEnv = DROutcome.nullGcode := by
  refine ⟨rfl, rfl, rfl⟩

/-- Helper: once an axis is stopped the tick handler is no longer invoked
  for it, so the state is unchanged by further ticks. -/
theorem runDecel_stopped (ticks : List (Nat × Nat)) (s : DecelState)
    (h : s.stopped = true) : runDecel ticks s = s := by
  induction ticks with
  | nil => rfl
  | cons t ts ih =>
    have h1 : runDecel (t :: ts) s = runDecel ts s := by
      simp only [runDecel, List.foldl_cons, h, if_pos]
    rw [h1, ih]

/-- Helper: a deceleration phase that ends with the axis stopped and the
  overrun flag clear recorded steps_at_decel_end at some tick whose
  step-counter reading was at least the trigger reading and strictly below
  the runout limit. -/
theorem runDecel_bounds (T : Nat) :
    ∀ (ticks : List (Nat × Nat)) (s : DecelState),
      s.stopped = false → s.has_exceeded_runout = false →
      (∀ t ∈ ticks, T ≤ t.1) →
      (runDecel ticks s).stopped = true →
      (runDecel ticks s).has_exceeded_runout = false →
      T ≤ (runDecel ticks s).steps_at_decel_end ∧
      (runDecel ticks s).steps_at_decel_end < s.runout_steps := by
  intro ticks
  induction ticks with
  | nil =>
    intro s hs he hm hstop hok
    exfalso
    have h1 : runDecel [] s = s := rfl
    rw [h1, hs] at hstop
    exact Bool.noConfusion hstop
  | cons t ts ih =>
    intro s hs he hm hstop hok
    have hstep : runDecel (t :: ts) s = runDecel ts (decelerate t.1 t.2 s) := by
      simp only [runDecel, List.foldl_cons, hs]
      simp
    rw [hstep] at hstop hok ⊢
    by_cases hro : s.runout_steps ≤ t.1
    · exfalso
      have hd : decelerate t.1 t.2 s =
          { s with rate := 0, steps_at_decel_end := t.1,
                   has_exceeded_runout := true, stopped := true } := by
        simp [decelerate, hro]
      rw [hd, runDecel_stopped ts _ rfl] at hok
      exact Bool.noConfusion hok
    · by_cases hcr : (if 0 < s.rate then
          (if (s.rate : ℤ) - (t.2 : ℤ) ≤ 20 then 0 else (s.rate : ℤ) - (t.2 : ℤ))
          else (s.rate : ℤ)) = 0
      · have hd : decelerate t.1 t.2 s =
            { s with rate := 0, steps_at_decel_end := t.1, stopped := true } := by
          simp only [decelerate, if_neg hro]
          rw [if_pos hcr]
        rw [hd, runDecel_stopped ts _ rfl]
        exact ⟨hm t (by simp), by simpa using lt_of_not_le hro⟩
      · have hd : decelerate t.1 t.2 s = { s with rate :=
            (if 0 < s.rate then
              (if (s.rate : ℤ) - (t.2 : ℤ) ≤ 20 then 0 else (s.rate : ℤ) - (t.2 : ℤ))
              else (s.rate : ℤ)).toNat } := by
          simp only [decelerate, if_neg hro]
          rw [if_neg hcr]
        rw [hd] at hstop hok ⊢
        exact ih _ hs he (fun x hx => hm x (List.mem_cons_of_mem t hx)) hstop hok

/-- C4: in a probe cycle that reports trigger = true with deceleration
  enabled (the deceleration phase ends with all relevant actuators stopped
  by the tick handler and the overrun flag clear), the recorded counters
  satisfy steps_at_trigger <= steps_at_decel_end <=
  steps_at_trigger + decelerate_runout * steps_per_mm + 1, where
  runout_steps was computed from steps_at_trigger as in wait_for_probe and
  every tick reads a step counter that has monotonically advanced past the
  trigger reading. -/
theorem c4_decel_step_bounds (T : Nat) (runout spm : ℚ)
    (ticks : List (Nat × Nat)) (s0 : DecelState)
    (hnn : 0 ≤ runout * spm)
    (hr : s0.runout_steps = runoutSteps T runout spm)
    (hs : s0.stopped = false) (he : s0.has_exceeded_runout = false)
    (hm : ∀ t ∈ ticks, T ≤ t.1)
    (hstop : (runDecel ticks s0).stopped = true)
    (hok : (runDecel ticks s0).has_exceeded_runout = false) :
    (T : ℚ) ≤ ((runDecel ticks s0).steps_at_decel_end : ℚ) ∧
    ((runDecel ticks s0).steps_at_decel_end : ℚ) ≤ (T : ℚ) + runout * spm + 1 := by
  obtain ⟨h1, h2⟩ := runDecel_bounds T ticks s0 hs he hm hstop hok
  constructor
  · exact_mod_cast h1
  · rw [hr] at h2
    have h0 : (0 : ℤ) ≤ ⌊runout * spm⌋ := Int.floor_nonneg.mpr hnn
    have h4 : ((⌊runout * spm⌋.toNat : ℚ)) ≤ runout * spm := by
      have h5 : ((⌊runout * spm⌋.toNat : ℚ)) = ((⌊runout * spm⌋ : ℤ) : ℚ) := by
        exact_mod_cast congrArg (Int.cast : ℤ → ℚ) (Int.toNat_of_nonneg h0)
      rw [h5]
      exact Int.floor_le (runout * spm)
    have h6 : ((runDecel ticks s0).steps_at_decel_end : ℚ) <
        (T : ℚ) + ((⌊runout * spm⌋.toNat : ℚ)) := by
      have := h2
      unfold runoutSteps at this
      exact_mod_cast this
    linarith

/-- C4 witness: a single-tick deceleration from a trigger at 100 steps with
  runout 0.5 mm at 100 steps/mm; the rate 30 minus the decrease 20 falls
  under the 20.1 floor, so the tick stops the axis at reading 100. -/
theorem c4_decel_step_bounds_witness :
    ((100 : Nat) : ℚ) ≤
      ((runDecel [(100, 20)] ⟨30, 150, 0, false, false⟩).steps_at_decel_end : ℚ) ∧
    ((runDecel [(100, 20)] ⟨30, 150, 0, false, false⟩).steps_at_decel_end : ℚ) ≤
      ((100 : Nat) : ℚ) + (1 / 2) * 100 + 1 :=
  c4_decel_step_bounds 100 (1 / 2) 100 [(100, 20)] ⟨30, 150, 0, false, false⟩
    (by norm_num)
    (by norm_num [runoutSteps]
        decide)
    rfl rfl
    (by decide)
    (by decide)
    (by decide)

/-- C10: return_probe ignores its reverse argument and the reverse_z
  configuration: for every steps value it issues exactly one relative
  coordinated Z move of zsteps_to_mm(steps) millimetres at feedrate
  min(2 * slow_feedrate, fast_feedrate), followed by zero-distance moves on
  all three actuators, and returns true, identically for reverse = true and
  reverse = false and for either value of reverse_z. -/
theorem c10_return_probe_ignores_reverse (cfg : ProbeCfg) (steps : ℤ)
    (r₁ r₂ : Bool) (b : Bool) :
    return_probe cfg steps r₁ = return_probe cfg steps r₂ ∧
    return_probe { cfg with reverse_z := b } steps r₁ = return_probe cfg steps r₁ ∧
    return_probe cfg steps r₁ =
      ([ MotionCmd.coordMove none none (some (zsteps_to_mm cfg (steps : ℚ)))
           (min (cfg.slow_feedrate * 2) cfg.fast_feedrate) true,
         MotionCmd.stepperMove 0 false 0,
         MotionCmd.stepperMove 1 false 0,
         MotionCmd.stepperMove 2 false 0 ], true) := by
  refine ⟨rfl, rfl, ?_⟩
  have hfr : (if cfg.slow_feedrate * 2 > cfg.fast_feedrate then cfg.fast_feedrate
      else cfg.slow_feedrate * 2) = min (cfg.slow_feedrate * 2) cfg.fast_feedrate := by
    rcases le_or_lt (cfg.slow_feedrate * 2) cfg.fast_feedrate with h | h
    · rw [if_neg (not_lt.mpr h), min_eq_left h]
    · rw [if_pos h, min_eq_right h.le]
  simp only [return_probe]
  rw [hfr]

end ZProbeModel
